/-
Verification of the `unifi_status` integration against its specification.

Shallow embedding of the code in `custom_components/unifi_status/`:
  * `sensor.py`   — status/derived sensors (alerts view, health view, uptime
    formatting, the `DERIVED_SENSORS` rule registry and its error containment);
  * `switch.py`   — restart / PoE-port switches (update state machine,
    `turn_on` / `turn_off` actions);
  * `coordinator.py` — the polling coordinator (`_async_update_data`,
    consecutive-failure counter, session recreation at the threshold).

Python dictionaries are modelled as insertion-ordered association lists;
Python scalar values as the inductive `Val` (JSON-like; floats are out of
scope, numeric record fields are integers).  Fallible Python evaluation is
modelled with `Except PyExc`, where `PyExc` carries the exception class that
the `try/except` clauses of the code discriminate on.
-/

import Mathlib

namespace UnifiStatus

/-! ## Python value model -/

/-- Exception classes distinguished by the code's `except` clauses;
`other` stands for any further class (e.g. `ZeroDivisionError`). -/
inductive PyExc where
  | keyError
  | typeError
  | valueError
  | attributeError
  | other (className : String)
  deriving DecidableEq, Repr

/-- JSON-like Python values (floats out of scope; numbers are integers). -/
inductive Val where
  | none : Val
  | bool : Bool → Val
  | int : Int → Val
  | str : String → Val
  | dict : List (String × Val) → Val
  | list : List Val → Val

/-- Python truthiness of a `Val` (`None`, `False`, `0`, `""`, `{}`, `[]`
are falsy). -/
def Val.truthy : Val → Bool
  | .none => false
  | .bool b => b
  | .int n => n != 0
  | .str s => s != ""
  | .dict d => !d.isEmpty
  | .list l => !l.isEmpty

/-- First-match lookup in an association list (Python dict read). -/
def dictFind (d : List (String × Val)) (k : String) : Option Val :=
  match d with
  | [] => Option.none
  | (k', v) :: rest => if k' = k then some v else dictFind rest k

/-- Python `x.get(k, dflt)`: returns the entry or the default on a dict,
raises `AttributeError` on any non-dict value. -/
def pyGet (v : Val) (k : String) (dflt : Val) : Except PyExc Val :=
  match v with
  | .dict d =>
    match dictFind d k with
    | some x => .ok x
    | Option.none => .ok dflt
  | _ => .error .attributeError

/-- Python `a or b`. -/
def pyOr (a b : Val) : Val := if a.truthy then a else b

/-- Python `int(v)`: identity on ints, `bool → {0,1}`, decimal-string
parsing (`ValueError` on failure), `TypeError` on every other class. -/
def pyToInt (v : Val) : Except PyExc Int :=
  match v with
  | .int n => .ok n
  | .bool b => .ok (if b then 1 else 0)
  | .str s =>
    match s.toInt? with
    | some n => .ok n
    | Option.none => .error .valueError
  | _ => .error .typeError

/-- Python `int(n / d)` for integer `n` and positive integer `d`:
true division followed by truncation toward zero. -/
def intTruncDiv (n : Int) (d : Nat) : Int :=
  if 0 ≤ n then ((n.toNat / d : Nat) : Int) else -(((-n).toNat / d : Nat) : Int)

/-- Python dict write `d[k] = v`: replaces the value in place if the key is
present, otherwise appends (insertion order preserved). -/
def dictInsert (d : List (String × Val)) (k : String) (v : Val) :
    List (String × Val) :=
  match d with
  | [] => [(k, v)]
  | (k', v') :: rest =>
    if k' = k then (k, v) :: rest else (k', v') :: dictInsert rest k v

/-! ## Alert records and the alerts view (`sensor.py`) -/

/-- An alert returned by `get_alerts()`; the code reads `alert["archived"]`
and the Last-Alert rule reads `alert.get("msg")`. -/
structure Alert where
  archived : Bool
  msg : String
  deriving DecidableEq, Repr

/-- The alerts view built by `UnifiStatusSensor.update` (branch
`SENSOR_ALERTS`, sensor.py:344-355) and identically by
`UnifiDerivedSensor._get_source_attributes` (sensor.py:442-449):

    for index, alert in enumerate(alerts, start=1):
        if not alert["archived"]:
            self._attributes[str(index)] = alert

The keys `str(index)` are pairwise distinct (the 1-based positions are
strictly increasing), so every dict insertion appends a fresh key; the
resulting dict is the insertion-ordered association list below. -/
def alertsViewAttrs (alerts : List Alert) : List (String × Alert) :=
  alerts.enum.filterMap fun p =>
    if p.2.archived then Option.none else some (toString (p.1 + 1), p.2)

/-- The alerts sensor state `self._state = len(self._attributes)`
(sensor.py:355). -/
def sensorAlertsState (alerts : List Alert) : Nat :=
  (alertsViewAttrs alerts).length

/-- The alerts view as the specification describes it: 1-based positions
computed over the non-archived alerts only, in original order (archived
entries do not consume an index).  Kept for comparison with
`alertsViewAttrs`, which is translated from the code. -/
def alertsViewAttrsSpec (alerts : List Alert) : List (String × Alert) :=
  (alerts.filter (fun a => !a.archived)).enum.map fun p =>
    (toString (p.1 + 1), p.2)

/-! ## Uptime formatting (`sensor.py:88-103`) -/

/-- Function `_format_uptime(seconds)` from sensor.py (the `int(seconds)` coercion is
performed by the caller model; here the argument is already an integer). -/
def format_uptime (seconds : Int) : String :=
  if seconds < 60 then "Less than 1 min"
  else
    let t := seconds.toNat
    let days := t / 86400
    let hours := (t % 86400) / 3600
    let minutes := (t % 3600) / 60
    let parts : List String :=
      (if days > 0 then [toString days ++ "d"] else []) ++
      (if hours > 0 then [toString hours ++ "hr"] else []) ++
      (if minutes > 0 then [toString minutes ++ "min"] else [])
    String.intercalate " " parts

/-! ## Subsystem records and the health view (`sensor.py:373-385`) -/

/-- A subsystem record from `get_healthinfo()`: the code requires the
`subsystem` and `status` string fields and passes every field through as an
attribute; `extra` holds the remaining open fields in dict order. -/
structure Subsystem where
  subsystem : String
  status : String
  extra : List (String × Val)

/-- Iteration order of the raw subsystem dict: `subsystem`, `status`, then
the extra fields. -/
def subsystemFields (s : Subsystem) : List (String × Val) :=
  ("subsystem", .str s.subsystem) :: ("status", .str s.status) :: s.extra

/-- Mutable fields of `UnifiStatusSensor` touched by the health branch of
`update` (`_state`, `_attributes`, `_alldata`, `_data`). -/
structure SensorSt where
  state : Option Val
  attrs : List (String × Val)
  alldata : Option (List Subsystem)
  data : Option Subsystem

/-- The health branch of `UnifiStatusSensor.update` (sensor.py:373-385):
if `healthinfo` is `None` the state becomes `None` and the attributes are
cleared; otherwise each record whose `subsystem` equals the sensor's tag
sets `_data`, upper-cases its `status` into `_state` and merges all its
fields into `_attributes`.  A tag with no matching record leaves the
previous state and attributes in place. -/
def sensorHealthStep (tag : String) (st : SensorSt) (sub : Subsystem) :
    SensorSt :=
  if sub.subsystem = tag then
    { st with
      data := some sub,
      state := some (.str sub.status.toUpper),
      attrs := (subsystemFields sub).foldl
        (fun a p => dictInsert a p.1 p.2) st.attrs }
  else st

def sensorHealthUpdate (tag : String) (st : SensorSt)
    (healthinfo : Option (List Subsystem)) : SensorSt :=
  match healthinfo with
  | Option.none => { st with state := Option.none, attrs := [] }
  | some subs =>
    subs.foldl (sensorHealthStep tag) { st with alldata := some subs }

/-! ## Switch model (`switch.py`) -/

def STATE_ON : String := "on"
def STATE_OFF : String := "off"
def STATE_UNAVAILABLE : String := "unavailable"
def STATE_UNKNOWN : String := "unknown"

/-- A port-table entry.  `port_idx` and `poe_mode` are always present in
controller data (the code reads them with `[]`); the PoE statistics fields
may be absent (`port["poe_voltage"]` etc. can raise `KeyError`, which the
inner `try` of `UnifiStatusSwitch.update` converts to unavailable). -/
structure Port where
  port_idx : Nat
  name : String
  port_poe : Bool
  poe_mode : String
  poe_voltage : Option Val
  poe_current : Option Val
  poe_power : Option Val

/-- A device record from `get_aps()`.  `port_table := Option.none` models a
record without the `port_table` key (`device["port_table"]` raises). -/
structure Device where
  device_id : String
  mac : String
  model : String
  serial : String
  version : String
  ip : String
  state : Int
  uptime : Option Int
  port_table : Option (List Port)

/-- Mutable fields of `UnifiStatusSwitch` (`_dev_id`, `_port_id`, `_mac`,
`_state`, `_attributes`).  `_state` is one of the HA state strings. -/
structure Switch where
  dev_id : String
  port_id : Nat
  mac : Option String
  state : String
  attrs : List (String × Val)

/-- The reachable-code test `device["state"] in [1, 4, 5, 6]` (switch.py:227, 238). -/
def reachableCodes : List Int := [1, 4, 5, 6]

/-- Body of the `try` block of the PoE branch (switch.py:239-253): walk the
port table; on the matching index record the mac, then set the state from
`poe_mode` and copy the PoE statistics attributes.  The returned flag is
`true` when an exception was raised (a missing statistics key), in which
case the mutations made so far survive and the caller sets the state to
unavailable. -/
def poeScan (swPortId : Nat) (devMac : String) :
    List Port → Switch → Switch × Bool
  | [], sw => (sw, false)
  | p :: ps, sw =>
    if p.port_idx = swPortId then
      let sw := { sw with mac := some devMac }
      if p.poe_mode = "auto" then
        let sw := { sw with state := STATE_ON }
        match p.poe_voltage with
        | Option.none => (sw, true)
        | some v =>
          let sw := { sw with attrs := dictInsert sw.attrs "poe_voltage" v }
          match p.poe_current with
          | Option.none => (sw, true)
          | some c =>
            let sw := { sw with attrs := dictInsert sw.attrs "poe_current" c }
            match p.poe_power with
            | Option.none => (sw, true)
            | some w =>
              poeScan swPortId devMac ps
                { sw with attrs := dictInsert sw.attrs "poe_power" w }
      else
        poeScan swPortId devMac ps { sw with state := STATE_OFF }
    else
      poeScan swPortId devMac ps sw

/-- Body of the device loop of `UnifiStatusSwitch.update`
(switch.py:215-261): the restart branch (`_port_id == 0`) records the
device attributes and maps the reachable codes to `STATE_OFF`, everything
else to `STATE_UNAVAILABLE`; the PoE branch resets the attributes and,
for a reachable device, scans the port table (missing table or missing PoE
statistics yield `STATE_UNAVAILABLE` through the `except` clause). -/
def switchUpdateStep (sw : Switch) (device : Device) : Switch :=
  if sw.dev_id = device.device_id then
    if sw.port_id = 0 then
      let sw := { sw with
        mac := some device.mac,
        attrs :=
          dictInsert (dictInsert (dictInsert (dictInsert (dictInsert
            sw.attrs "model" (.str device.model))
            "serial" (.str device.serial))
            "version" (.str device.version))
            "ip" (.str device.ip))
            "mac" (.str device.mac) }
      let sw :=
        match device.uptime with
        | some u =>
          if u ≠ 0 then { sw with attrs := dictInsert sw.attrs "uptime" (.int u) }
          else sw
        | Option.none => sw
      if device.state ∈ reachableCodes then { sw with state := STATE_OFF }
      else { sw with state := STATE_UNAVAILABLE }
    else
      let sw := { sw with attrs := [] }
      if device.state ∈ reachableCodes then
        match device.port_table with
        | Option.none => { sw with state := STATE_UNAVAILABLE }
        | some ports =>
          match poeScan sw.port_id device.mac ports sw with
          | (sw', raised) =>
            if raised then { sw' with state := STATE_UNAVAILABLE } else sw'
      else { sw with state := STATE_UNAVAILABLE }
  else sw

/-- Method `UnifiStatusSwitch.update` (switch.py:207-263) after the shared data
refresh: `aps = None` (failed fetch) forces `STATE_UNAVAILABLE`; otherwise
every device record is run through the loop body in order. -/
def switchUpdate (sw : Switch) (aps : Option (List Device)) : Switch :=
  match aps with
  | Option.none => { sw with state := STATE_UNAVAILABLE }
  | some devs => devs.foldl switchUpdateStep sw

/-- Controller-client calls and refresh requests observable from the switch
actions.  `request_refresh` exists in the vocabulary so that its absence
from an action's trace is expressible. -/
inductive CtrlCall where
  | restart_ap (mac : Option String)
  | switch_port_power_on (mac : Option String) (portIdx : Nat)
  | switch_port_power_off (mac : Option String) (portIdx : Nat)
  | request_refresh
  deriving DecidableEq, Repr

/-- Method `UnifiStatusSwitch.turn_on` (switch.py:181-189): restart switches call
`restart_ap(mac)`, PoE switches call `switch_port_power_on(mac, port)`;
both then set `_state = STATE_ON` locally.  No refresh is requested. -/
def turn_on (sw : Switch) : Switch × List CtrlCall :=
  if sw.port_id = 0 then
    ({ sw with state := STATE_ON }, [.restart_ap sw.mac])
  else
    ({ sw with state := STATE_ON }, [.switch_port_power_on sw.mac sw.port_id])

/-- Method `UnifiStatusSwitch.turn_off` (switch.py:191-200): restart switches only
set `_state = STATE_OFF`; PoE switches call
`switch_port_power_off(mac, port)` and set `_state = STATE_OFF`. -/
def turn_off (sw : Switch) : Switch × List CtrlCall :=
  if sw.port_id = 0 then
    ({ sw with state := STATE_OFF }, [])
  else
    ({ sw with state := STATE_OFF }, [.switch_port_power_off sw.mac sw.port_id])

/-! ## Polling coordinator (`coordinator.py`) -/

/-- Constant `MAX_CONSECUTIVE_FAILURES` (coordinator.py:30). -/
def MAX_CONSECUTIVE_FAILURES : Nat := 3

/-- The triple returned by `_fetch_all` (coordinator.py:128-133). -/
structure FetchData where
  healthinfo : List Val
  alerts : List Val
  aps : List Val

/-- An exception raised by `_fetch_all`: the first `try` of
`_async_update_data` catches only `APIError`; any other class propagates. -/
inductive FetchErr where
  | apiError (msg : String)
  | other (msg : String)
  deriving DecidableEq, Repr

/-- Outcomes of the environment interactions of one refresh: the first
fetch on the current session, whether `_logout_safe` raises, the result of
creating a fresh `Controller`, and the retry fetch on the new session. -/
structure RefreshEnv where
  firstFetch : Except FetchErr FetchData
  closeRaises : Bool
  createCtrl : Except String Nat
  retryFetch : Except String FetchData

/-- Whether this refresh's first fetch raises an `APIError` (the failure
mode of interest to the consecutive-failure counter). -/
def RefreshEnv.failsWithApiError (env : RefreshEnv) : Bool :=
  match env.firstFetch with
  | .error (.apiError _) => true
  | _ => false

/-- How one `_async_update_data` call terminates: a returned snapshot
dict, an `UpdateFailed` raised at the coordinator boundary, or an
exception escaping unhandled. -/
inductive RefreshResult where
  | success (d : FetchData)
  | updateFailed (msg : String)
  | raised (e : FetchErr)

/-- Externally visible session-lifecycle events of one refresh. -/
inductive CoordEvent where
  | close (id : Nat) (raisedFlag : Bool)
  | create (id : Nat)
  | fetchAttempt (id : Nat)
  deriving DecidableEq, Repr

def CoordEvent.isClose : CoordEvent → Bool
  | .close _ _ => true
  | _ => false

def CoordEvent.isCreate : CoordEvent → Bool
  | .create _ => true
  | _ => false

def CoordEvent.isFetchAttempt : CoordEvent → Bool
  | .fetchAttempt _ => true
  | _ => false

/-- Coordinator state: the session handle (`self.ctrl`, identified by a
numeric id so recreation is observable), `self._consecutive_failures`, and
the framework-held last successful update data (`self.data`, replaced only
when `_async_update_data` returns instead of raising `UpdateFailed`). -/
structure CoordState where
  ctrl : Option Nat
  consecutiveFailures : Nat
  data : Option FetchData

/-- Method `UnifiStatusCoordinator._async_update_data` (coordinator.py:81-126)
together with `_async_create_controller` (coordinator.py:54-66):

  * no controller → `UpdateFailed`;
  * first fetch succeeds → counter reset to 0, new data published;
  * first fetch raises a non-`APIError` → propagates unhandled;
  * first fetch raises `APIError` → counter incremented; below the
    threshold this is reported as `UpdateFailed` with data untouched; at
    the threshold the old session is closed (close errors swallowed), a
    fresh controller is created (resetting the counter to 0) and the fetch
    is retried once — retry success publishes data, any exception during
    recreation or retry becomes `UpdateFailed`. -/
def async_update_data (s : CoordState) (env : RefreshEnv) :
    CoordState × RefreshResult × List CoordEvent :=
  match s.ctrl with
  | Option.none => (s, .updateFailed "Controller not initialized", [])
  | some cid =>
    match env.firstFetch with
    | .ok d =>
      ({ s with consecutiveFailures := 0, data := some d },
       .success d, [.fetchAttempt cid])
    | .error (.other m) =>
      (s, .raised (.other m), [.fetchAttempt cid])
    | .error (.apiError m) =>
      let f := s.consecutiveFailures + 1
      if MAX_CONSECUTIVE_FAILURES ≤ f then
        match env.createCtrl with
        | .error e =>
          ({ s with consecutiveFailures := f },
           .updateFailed ("Failed after controller recreation: " ++ e),
           [.fetchAttempt cid, .close cid env.closeRaises])
        | .ok nid =>
          let s' := { s with ctrl := some nid, consecutiveFailures := 0 }
          match env.retryFetch with
          | .ok d =>
            ({ s' with data := some d },
             .success d,
             [.fetchAttempt cid, .close cid env.closeRaises,
              .create nid, .fetchAttempt nid])
          | .error e =>
            (s',
             .updateFailed ("Failed after controller recreation: " ++ e),
             [.fetchAttempt cid, .close cid env.closeRaises,
              .create nid, .fetchAttempt nid])
      else
        ({ s with consecutiveFailures := f },
         .updateFailed ("Error communicating with UniFi controller: " ++ m),
         [.fetchAttempt cid])

/-- A run of successive refresh cycles, collecting outcomes and events. -/
def runRefreshes (s : CoordState) (envs : List RefreshEnv) :
    CoordState × List RefreshResult × List CoordEvent :=
  match envs with
  | [] => (s, [], [])
  | e :: es =>
    match async_update_data s e with
    | (s1, r, evs) =>
      match runRefreshes s1 es with
      | (s2, rs, evs2) => (s2, r :: rs, evs ++ evs2)

/-! ## Derived-sensor rule registry (`sensor.py:106-226`) -/

/-- One entry of `DERIVED_SENSORS`. -/
structure DerivedSensorDef where
  name : String
  unique_id : String
  source : String
  unit : Option String
  icon : Option String
  value_fn : Val → Except PyExc Val

/-- Rule `lambda a: (a.get("gw_system-stats") or \x7b\x7d).get("cpu", 0)` -/
def fn_wan_cpu (a : Val) : Except PyExc Val := do
  let s ← pyGet a "gw_system-stats" .none
  pyGet (pyOr s (.dict [])) "cpu" (.int 0)

/-- Rule `lambda a: (a.get("gw_system-stats") or \x7b\x7d).get("mem", 0)` -/
def fn_wan_mem (a : Val) : Except PyExc Val := do
  let s ← pyGet a "gw_system-stats" .none
  pyGet (pyOr s (.dict [])) "mem" (.int 0)

/-- Rule `lambda a: a.get("wan_ip")` -/
def fn_wan_ip (a : Val) : Except PyExc Val :=
  pyGet a "wan_ip" .none

/-- Shared tail of the rate rules, `int((a.get(key) or 0) / 1024)`: Python true division by 1024 followed
by `int` truncation; a surviving truthy non-number raises `TypeError`,
`True` yields `int(1/1024) = 0`. -/
def intOfDiv1024 (v : Val) : Except PyExc Val :=
  match v with
  | .int n => .ok (.int (intTruncDiv n 1024))
  | .bool _ => .ok (.int 0)
  | _ => .error .typeError

/-- Rule `lambda a: int((a.get("rx_bytes-r") or 0) / 1024)` -/
def fn_wan_download (a : Val) : Except PyExc Val := do
  let r ← pyGet a "rx_bytes-r" .none
  intOfDiv1024 (pyOr r (.int 0))

/-- Rule `lambda a: int((a.get("tx_bytes-r") or 0) / 1024)` -/
def fn_wan_upload (a : Val) : Except PyExc Val := do
  let r ← pyGet a "tx_bytes-r" .none
  intOfDiv1024 (pyOr r (.int 0))

/-- Rule `lambda a: _format_uptime((a.get("gw_system-stats") or \x7b\x7d).get("uptime", 0))` -/
def fn_wan_uptime (a : Val) : Except PyExc Val := do
  let s ← pyGet a "gw_system-stats" .none
  let u ← pyGet (pyOr s (.dict [])) "uptime" (.int 0)
  let n ← pyToInt u
  pure (.str (format_uptime n))

/-- Rule `lambda a: a.get("gw_version")` -/
def fn_firmware_version (a : Val) : Except PyExc Val :=
  pyGet a "gw_version" .none

/-- Rule `lambda a: a.get("xput_down")` -/
def fn_xput_down (a : Val) : Except PyExc Val :=
  pyGet a "xput_down" .none

/-- Rule `lambda a: a.get("xput_up")` -/
def fn_xput_up (a : Val) : Except PyExc Val :=
  pyGet a "xput_up" .none

/-- Rule `lambda a: a.get("speedtest_ping")` -/
def fn_speedtest_ping (a : Val) : Except PyExc Val :=
  pyGet a "speedtest_ping" .none

/-- Rule `lambda a: _format_uptime(a.get("uptime", 0))` -/
def fn_www_uptime (a : Val) : Except PyExc Val := do
  let u ← pyGet a "uptime" (.int 0)
  let n ← pyToInt u
  pure (.str (format_uptime n))

/-- Rule `lambda a: a.get("num_user")` -/
def fn_num_user (a : Val) : Except PyExc Val :=
  pyGet a "num_user" .none

/-- Rule `lambda a: (a.get("1") or \x7b\x7d).get("msg", "Aucune alerte")` -/
def fn_last_alert (a : Val) : Except PyExc Val := do
  let x ← pyGet a "1" .none
  pyGet (pyOr x (.dict [])) "msg" (.str "Aucune alerte")

/-- The `DERIVED_SENSORS` registry (sensor.py:106-226). -/
def DERIVED_SENSORS : List DerivedSensorDef :=
  [ ⟨"UDM CPU", "unifi_status_wan_cpu", "wan", some "%", Option.none, fn_wan_cpu⟩,
    ⟨"UDM Memory", "unifi_status_wan_mem", "wan", some "%", Option.none, fn_wan_mem⟩,
    ⟨"WAN IP", "unifi_status_wan_ip", "wan", Option.none, Option.none, fn_wan_ip⟩,
    ⟨"WAN Download", "unifi_status_wan_download", "wan", some "Kbps",
      some "mdi:progress-download", fn_wan_download⟩,
    ⟨"WAN Upload", "unifi_status_wan_upload", "wan", some "Kbps",
      some "mdi:progress-upload", fn_wan_upload⟩,
    ⟨"UDM Uptime", "unifi_status_wan_uptime", "wan", Option.none, Option.none,
      fn_wan_uptime⟩,
    ⟨"UDM Firmware Version", "unifi_status_firmware_version", "wan",
      Option.none, some "mdi:database-plus", fn_firmware_version⟩,
    ⟨"UDM Speedtest Download", "unifi_status_www_xput_down", "www",
      some "Mbps", some "mdi:progress-download", fn_xput_down⟩,
    ⟨"UDM Speedtest Upload", "unifi_status_www_xput_up", "www",
      some "Mbps", some "mdi:progress-upload", fn_xput_up⟩,
    ⟨"UDM Speedtest Ping", "unifi_status_www_speedtest_ping", "www",
      some "ms", some "mdi:progress-clock", fn_speedtest_ping⟩,
    ⟨"Internet Uptime", "unifi_status_www_uptime", "www", Option.none,
      Option.none, fn_www_uptime⟩,
    ⟨"Users Wifi", "unifi_status_wlan_num_user", "wlan", Option.none,
      some "mdi:account-multiple", fn_num_user⟩,
    ⟨"Users Lan", "unifi_status_lan_num_user", "lan", Option.none,
      some "mdi:account-multiple", fn_num_user⟩,
    ⟨"Last Alert", "unifi_status_last_alert", "alerts", Option.none,
      some "mdi:alert-outline", fn_last_alert⟩ ]

/-- The exception classes named in the `except` clause of
`UnifiDerivedSensor.update` (sensor.py:437): `(KeyError, TypeError,
ValueError)`. -/
def caughtByDerivedUpdate (e : PyExc) : Bool :=
  match e with
  | .keyError => true
  | .typeError => true
  | .valueError => true
  | _ => false

/-- Method `UnifiDerivedSensor.update` (sensor.py:428-438) after the shared data
refresh: absent source attributes give state `None`; otherwise the rule is
evaluated, `KeyError`/`TypeError`/`ValueError` are contained as `None`,
and every other exception class propagates out of `update`. -/
def derivedUpdate (value_fn : Val → Except PyExc Val) (attrs : Option Val) :
    Except PyExc (Option Val) :=
  match attrs with
  | Option.none => .ok Option.none
  | some a =>
    match value_fn a with
    | .ok v => .ok (some v)
    | .error e =>
      if caughtByDerivedUpdate e then .ok Option.none else .error e

/-! ## Helper lemmas -/

lemma filterMap_if_eq {α β : Type _} (c : α → Bool) (f : α → β) (l : List α) :
    l.filterMap (fun x => if c x then Option.none else some (f x))
      = (l.filter fun x => !c x).map f := by
  induction l with
  | nil => rfl
  | cons x xs ih =>
    by_cases hc : c x <;> simp [List.filterMap_cons, List.filter_cons, hc, ih]

lemma length_filter_enumFrom {α : Type _} (q : α → Bool) (l : List α) :
    ∀ n : Nat,
      ((l.enumFrom n).filter fun p => q p.2).length = (l.filter q).length := by
  induction l with
  | nil => intro n; rfl
  | cons x xs ih =>
    intro n
    by_cases hq : q x <;> simp [List.enumFrom, List.filter_cons, hq, ih]

lemma uptime_parts_eq (d h m : Nat) :
    ((if d > 0 then [toString d ++ "d"] else []) ++
      (if h > 0 then [toString h ++ "hr"] else []) ++
      (if m > 0 then [toString m ++ "min"] else []))
      = (([(d, "d"), (h, "hr"), (m, "min")].filter fun p => p.1 ≠ 0).map
          fun p => toString p.1 ++ p.2) := by
  by_cases hd : d = 0 <;> by_cases hh : h = 0 <;> by_cases hm : m = 0 <;>
    simp [hd, hh, hm, List.filter_cons, Nat.pos_iff_ne_zero]

/-! ## C8 — uptime formatting -/

/-- C8: for every non-negative integer number of seconds, below 60 the
result is the literal `"Less than 1 min"`; otherwise, with
`days = seconds // 86400`, `hours = (seconds % 86400) // 3600`,
`minutes = (seconds % 3600) // 60`, the result is the space-separated
concatenation of the non-zero components `"{d}d" "{h}hr" "{m}min"` in that
order with zero components omitted; in particular
`formatUptime 3661 = "1hr 1min"`, `formatUptime 90000 = "1d 1hr"`,
`formatUptime 86400 = "1d"`. -/
theorem C8_format_uptime (s : Nat) :
    (s < 60 → format_uptime (s : Int) = "Less than 1 min")
    ∧ (60 ≤ s →
        format_uptime (s : Int)
          = String.intercalate " "
              (([(s / 86400, "d"), ((s % 86400) / 3600, "hr"),
                 ((s % 3600) / 60, "min")].filter fun p => p.1 ≠ 0).map
                fun p => toString p.1 ++ p.2))
    ∧ format_uptime 3661 = "1hr 1min"
    ∧ format_uptime 90000 = "1d 1hr"
    ∧ format_uptime 86400 = "1d" := by
  refine ⟨?_, ?_, by decide, by decide, by decide⟩
  · intro h
    have hs : (s : Int) < 60 := by exact_mod_cast h
    simp [format_uptime, hs]
  · intro h
    have h1 : ¬ ((s : Int) < 60) := by
      simp only [not_lt]
      exact_mod_cast h
    have h2 : ((s : Nat) : Int).toNat = s := Int.toNat_natCast s
    simp only [format_uptime, if_neg h1, h2]
    rw [uptime_parts_eq]

/-- Witness for `C8_format_uptime` at concrete inputs. -/
theorem C8_witness :
    format_uptime ((30 : Nat) : Int) = "Less than 1 min"
    ∧ format_uptime 3661 = "1hr 1min" :=
  ⟨(C8_format_uptime 30).1 (by decide), (C8_format_uptime 3661).2.2.1⟩

/-! ## C1 — alerts view indexing -/

/-- C1 is refuted: on alerts `[archived, A, B]` the specification's view
(`alertsViewAttrsSpec`) is `[("1", A), ("2", B)]`, but the view the code
builds keys the alerts by their 1-based position in the full list, giving
`[("2", A), ("3", B)]`. -/
theorem C1_counterexample :
    alertsViewAttrsSpec [⟨true, "X"⟩, ⟨false, "A"⟩, ⟨false, "B"⟩]
        = [("1", (⟨false, "A"⟩ : Alert)), ("2", ⟨false, "B"⟩)]
    ∧ ¬ (alertsViewAttrs [⟨true, "X"⟩, ⟨false, "A"⟩, ⟨false, "B"⟩]
        = [("1", (⟨false, "A"⟩ : Alert)), ("2", ⟨false, "B"⟩)]) := by
  decide

/-- C1 (amended): the Alerts view maps each non-archived alert to the
string of its 1-based position in the **full** original list — archived
entries are omitted from the mapping but still consume an index — and the
alerts sensor state equals the number of non-archived alerts (the size of
the mapping). -/
theorem C1_alerts_view (alerts : List Alert) :
    alertsViewAttrs alerts
        = (alerts.enum.filter fun p => !p.2.archived).map
            (fun p => (toString (p.1 + 1), p.2))
    ∧ sensorAlertsState alerts
        = (alerts.filter fun a => !a.archived).length := by
  have h1 :
      alertsViewAttrs alerts
        = (alerts.enum.filter fun p => !p.2.archived).map
            (fun p => (toString (p.1 + 1), p.2)) :=
    filterMap_if_eq (fun p : Nat × Alert => p.2.archived)
      (fun p : Nat × Alert => (toString (p.1 + 1), p.2)) alerts.enum
  refine ⟨h1, ?_⟩
  unfold sensorAlertsState
  rw [h1, List.length_map]
  exact length_filter_enumFrom (fun a => !a.archived) alerts 0

/-! ## C2 — PoE `turn_on` round trip -/

/-- C2 is refuted: on a PoE switch, `turn_on` requests **zero** refreshes
(not one) and optimistically overwrites the local state with `STATE_ON`
(the pre-action state `STATE_OFF` is not preserved). -/
theorem C2_counterexample :
    ¬ (((turn_on ⟨"d1", 3, some "aa:bb", STATE_OFF, []⟩).2.count
          CtrlCall.request_refresh = 1)
       ∧ (turn_on ⟨"d1", 3, some "aa:bb", STATE_OFF, []⟩).1.state
          = STATE_OFF) := by
  decide

/-- C2 (amended): for every PoE switch (port index ≠ 0), `turn_on` issues
exactly one `switch_port_power_on(mac, portIndex)` client call, requests no
refresh, and optimistically sets the local state to `STATE_ON`; the state
reported afterwards is this optimistic value until the next update. -/
theorem C2_turn_on_poe (sw : Switch) (h : sw.port_id ≠ 0) :
    (turn_on sw).2 = [CtrlCall.switch_port_power_on sw.mac sw.port_id]
    ∧ (turn_on sw).2.count (CtrlCall.switch_port_power_on sw.mac sw.port_id) = 1
    ∧ (turn_on sw).2.count CtrlCall.request_refresh = 0
    ∧ (turn_on sw).1 = { sw with state := STATE_ON } := by
  refine ⟨?_, ?_, ?_, ?_⟩ <;>
    simp [turn_on, h, List.count_cons, List.count_nil]

/-- Witness for `C2_turn_on_poe` at a concrete PoE switch. -/
theorem C2_witness :
    (turn_on ⟨"d1", 3, some "aa:bb", STATE_OFF, []⟩).2.count
        CtrlCall.request_refresh = 0
    ∧ (turn_on ⟨"d1", 3, some "aa:bb", STATE_OFF, []⟩).1
        = { (⟨"d1", 3, some "aa:bb", STATE_OFF, []⟩ : Switch) with
              state := STATE_ON } :=
  ⟨(C2_turn_on_poe ⟨"d1", 3, some "aa:bb", STATE_OFF, []⟩ (by decide)).2.2.1,
   (C2_turn_on_poe ⟨"d1", 3, some "aa:bb", STATE_OFF, []⟩ (by decide)).2.2.2⟩

/-! ## Switch update lemmas -/

lemma poeScan_preserve (i : Nat) (mac : String) :
    ∀ (ports : List Port) (sw : Switch),
      (poeScan i mac ports sw).1.dev_id = sw.dev_id
      ∧ (poeScan i mac ports sw).1.port_id = sw.port_id := by
  intro ports
  induction ports with
  | nil => intro sw; exact ⟨rfl, rfl⟩
  | cons p ps ih =>
    intro sw
    by_cases hidx : p.port_idx = i
    · by_cases hmode : p.poe_mode = "auto"
      · cases hv : p.poe_voltage with
        | none => simp [poeScan, hidx, hmode, hv]
        | some v =>
          cases hc : p.poe_current with
          | none => simp [poeScan, hidx, hmode, hv, hc]
          | some c =>
            cases hw : p.poe_power with
            | none => simp [poeScan, hidx, hmode, hv, hc, hw]
            | some w => simp [poeScan, hidx, hmode, hv, hc, hw, ih]
      · simp [poeScan, hidx, hmode, ih]
    · simp [poeScan, hidx, ih]

lemma poeScan_skip (i : Nat) (mac : String) :
    ∀ (ports : List Port) (sw : Switch), (∀ p ∈ ports, p.port_idx ≠ i) →
      poeScan i mac ports sw = (sw, false) := by
  intro ports
  induction ports with
  | nil => intro sw _; rfl
  | cons p ps ih =>
    intro sw h
    have hp : p.port_idx ≠ i := h p (List.mem_cons_self p ps)
    simp [poeScan, hp, ih sw fun q hq => h q (List.mem_cons_of_mem p hq)]

lemma poeScan_append (i : Nat) (mac : String) (ps1 : List Port)
    (h : ∀ p ∈ ps1, p.port_idx ≠ i) :
    ∀ (rest : List Port) (sw : Switch),
      poeScan i mac (ps1 ++ rest) sw = poeScan i mac rest sw := by
  induction ps1 with
  | nil => intro rest sw; rfl
  | cons p ps ih =>
    intro rest sw
    have hp : p.port_idx ≠ i := h p (List.mem_cons_self p ps)
    simp [poeScan, hp]
    exact ih (fun q hq => h q (List.mem_cons_of_mem p hq)) rest sw

lemma poeScan_found (i : Nat) (mac : String) (p : Port) (ps2 : List Port)
    (sw : Switch) (hidx : p.port_idx = i)
    (hskip : ∀ q ∈ ps2, q.port_idx ≠ i)
    (hcomplete : p.poe_mode = "auto" →
      p.poe_voltage ≠ Option.none ∧ p.poe_current ≠ Option.none
        ∧ p.poe_power ≠ Option.none) :
    (poeScan i mac (p :: ps2) sw).2 = false
    ∧ (poeScan i mac (p :: ps2) sw).1.state
        = (if p.poe_mode = "auto" then STATE_ON else STATE_OFF) := by
  by_cases hmode : p.poe_mode = "auto"
  · obtain ⟨hv, hc, hw⟩ := hcomplete hmode
    cases hvv : p.poe_voltage with
    | none => exact absurd hvv hv
    | some v =>
      cases hcc : p.poe_current with
      | none => exact absurd hcc hc
      | some c =>
        cases hww : p.poe_power with
        | none => exact absurd hww hw
        | some w =>
          simp [poeScan, hidx, hmode, hvv, hcc, hww, poeScan_skip i mac ps2 _ hskip]
  · simp [poeScan, hidx, hmode, poeScan_skip i mac ps2 _ hskip]

lemma switchUpdateStep_nonmatching (sw : Switch) (d : Device)
    (h : d.device_id ≠ sw.dev_id) : switchUpdateStep sw d = sw := by
  have h' : ¬ (sw.dev_id = d.device_id) := fun he => h he.symm
  simp [switchUpdateStep, h']

lemma switchUpdateStep_preserve (sw : Switch) (d : Device) :
    (switchUpdateStep sw d).dev_id = sw.dev_id
    ∧ (switchUpdateStep sw d).port_id = sw.port_id := by
  by_cases hid : sw.dev_id = d.device_id
  · by_cases h0 : sw.port_id = 0
    · cases hu : d.uptime with
      | none =>
        by_cases hr : d.state ∈ reachableCodes <;>
          simp [switchUpdateStep, hid, h0, hu, hr]
      | some u =>
        by_cases hz : u ≠ 0 <;> by_cases hr : d.state ∈ reachableCodes <;>
          simp [switchUpdateStep, hid, h0, hu, hr, hz]
    · by_cases hr : d.state ∈ reachableCodes
      · cases ht : d.port_table with
        | none => simp [switchUpdateStep, hid, h0, hr, ht]
        | some ports =>
          have hps := poeScan_preserve sw.port_id d.mac ports
            { sw with attrs := [] }
          by_cases hraised :
              (poeScan sw.port_id d.mac ports { sw with attrs := [] }).2 = true <;>
            simp_all [switchUpdateStep, hid, h0, hr, ht]
      · simp [switchUpdateStep, hid, h0, hr]
  · simp [switchUpdateStep, hid]

lemma foldl_step_preserve (devs : List Device) :
    ∀ sw : Switch,
      (devs.foldl switchUpdateStep sw).dev_id = sw.dev_id
      ∧ (devs.foldl switchUpdateStep sw).port_id = sw.port_id := by
  induction devs with
  | nil => intro sw; exact ⟨rfl, rfl⟩
  | cons d ds ih =>
    intro sw
    have h1 := switchUpdateStep_preserve sw d
    have h2 := ih (switchUpdateStep sw d)
    simp only [List.foldl_cons]
    exact ⟨h2.1.trans h1.1, h2.2.trans h1.2⟩

lemma foldl_step_nonmatching (devs : List Device) :
    ∀ sw : Switch, (∀ d ∈ devs, d.device_id ≠ sw.dev_id) →
      devs.foldl switchUpdateStep sw = sw := by
  induction devs with
  | nil => intro sw _; rfl
  | cons d ds ih =>
    intro sw h
    have h1 : switchUpdateStep sw d = sw :=
      switchUpdateStep_nonmatching sw d (h d (List.mem_cons_self d ds))
    simp only [List.foldl_cons, h1]
    exact ih sw fun e he => h e (List.mem_cons_of_mem d he)

lemma switchUpdateStep_restart (sw : Switch) (d : Device)
    (h0 : sw.port_id = 0) (hid : d.device_id = sw.dev_id) :
    (switchUpdateStep sw d).state
      = (if d.state ∈ reachableCodes then STATE_OFF else STATE_UNAVAILABLE) := by
  have hid' : sw.dev_id = d.device_id := hid.symm
  cases hu : d.uptime with
  | none =>
    by_cases hr : d.state ∈ reachableCodes <;>
      simp [switchUpdateStep, hid', h0, hu, hr]
  | some u =>
    by_cases hz : u ≠ 0 <;> by_cases hr : d.state ∈ reachableCodes <;>
      simp [switchUpdateStep, hid', h0, hu, hr, hz]

lemma switchUpdateStep_poe_unreachable (sw : Switch) (d : Device)
    (hp : sw.port_id ≠ 0) (hid : d.device_id = sw.dev_id)
    (hr : d.state ∉ reachableCodes) :
    (switchUpdateStep sw d).state = STATE_UNAVAILABLE := by
  simp [switchUpdateStep, hid.symm, hp, hr]

lemma switchUpdateStep_poe_no_table (sw : Switch) (d : Device)
    (hp : sw.port_id ≠ 0) (hid : d.device_id = sw.dev_id)
    (hr : d.state ∈ reachableCodes) (ht : d.port_table = Option.none) :
    (switchUpdateStep sw d).state = STATE_UNAVAILABLE := by
  simp [switchUpdateStep, hid.symm, hp, hr, ht]

lemma switchUpdateStep_poe_not_found (sw : Switch) (d : Device)
    (hp : sw.port_id ≠ 0) (hid : d.device_id = sw.dev_id)
    (hr : d.state ∈ reachableCodes) (ports : List Port)
    (ht : d.port_table = some ports)
    (hnone : ∀ p ∈ ports, p.port_idx ≠ sw.port_id) :
    (switchUpdateStep sw d).state = sw.state := by
  simp [switchUpdateStep, hid.symm, hp, hr, ht,
    poeScan_skip sw.port_id d.mac ports _ hnone]

lemma switchUpdateStep_poe_found (sw : Switch) (d : Device)
    (hp : sw.port_id ≠ 0) (hid : d.device_id = sw.dev_id)
    (hr : d.state ∈ reachableCodes) (ps1 : List Port) (p : Port)
    (ps2 : List Port) (ht : d.port_table = some (ps1 ++ p :: ps2))
    (hidx : p.port_idx = sw.port_id)
    (h1 : ∀ q ∈ ps1, q.port_idx ≠ sw.port_id)
    (h2 : ∀ q ∈ ps2, q.port_idx ≠ sw.port_id)
    (hcomplete : p.poe_mode = "auto" →
      p.poe_voltage ≠ Option.none ∧ p.poe_current ≠ Option.none
        ∧ p.poe_power ≠ Option.none) :
    (switchUpdateStep sw d).state
      = (if p.poe_mode = "auto" then STATE_ON else STATE_OFF) := by
  have happ := poeScan_append sw.port_id d.mac ps1 h1 (p :: ps2)
    { sw with attrs := [] }
  have hfound := poeScan_found sw.port_id d.mac p ps2 { sw with attrs := [] }
    hidx h2 hcomplete
  rcases hx : poeScan sw.port_id d.mac (p :: ps2) { sw with attrs := [] } with
    ⟨sw', raised⟩
  rw [hx] at hfound
  simp only at hfound
  simp [switchUpdateStep, hid, hp, hr, ht, happ, hx, hfound.1, hfound.2]

/-! ## C5 — restart switch reachability -/

/-- C5 is refuted: for a restart switch whose device has reachable state
code 1, the update sets the state to `STATE_OFF`, not to on. -/
theorem C5_counterexample :
    ¬ ((switchUpdate ⟨"d1", 0, Option.none, STATE_UNKNOWN, []⟩
          (some [⟨"d1", "m", "mo", "se", "ve", "ip", 1, Option.none,
            Option.none⟩])).state = STATE_ON) := by
  decide

/-- C5 (amended): for every restart switch (port index 0) and every
matching device record, after an update the state is `STATE_OFF`
("device currently up", ready to be restarted) when the device's state
code is in `{1, 4, 5, 6}`, and `STATE_UNAVAILABLE` for every other
state code. -/
theorem C5_restart_reachability (sw : Switch) (pre post : List Device)
    (d : Device) (h0 : sw.port_id = 0) (hid : d.device_id = sw.dev_id)
    (hpost : ∀ e ∈ post, e.device_id ≠ sw.dev_id) :
    (switchUpdate sw (some (pre ++ d :: post))).state
      = (if d.state ∈ reachableCodes then STATE_OFF else STATE_UNAVAILABLE) := by
  simp only [switchUpdate]
  rw [List.foldl_append]
  have hpres := foldl_step_preserve pre sw
  have hstep := switchUpdateStep_restart (pre.foldl switchUpdateStep sw) d
    (hpres.2.trans h0) (hid.trans hpres.1.symm)
  simp only [List.foldl_cons]
  rw [foldl_step_nonmatching post _ (fun e he => by
    rw [(switchUpdateStep_preserve (pre.foldl switchUpdateStep sw) d).1,
      hpres.1]
    exact hpost e he)]
  exact hstep

/-- Witness for `C5_restart_reachability` at a concrete reachable device. -/
theorem C5_witness :
    (switchUpdate ⟨"d1", 0, Option.none, STATE_UNKNOWN, []⟩
        (some ([] ++ (⟨"d1", "m", "mo", "se", "ve", "ip", 1, Option.none,
          Option.none⟩ : Device) :: []))).state
      = (if (1 : Int) ∈ reachableCodes then STATE_OFF else STATE_UNAVAILABLE) :=
  C5_restart_reachability ⟨"d1", 0, Option.none, STATE_UNKNOWN, []⟩ [] []
    ⟨"d1", "m", "mo", "se", "ve", "ip", 1, Option.none, Option.none⟩
    rfl rfl (fun e he => absurd he (List.not_mem_nil e))

/-! ## C6 — PoE port state machine -/

/-- C6 is refuted: when the port table of a reachable device contains no
record with the requested index, the update leaves the previous state in
place (here `STATE_ON`) instead of reporting unavailable. -/
theorem C6_counterexample :
    ¬ ((switchUpdate ⟨"d1", 2, Option.none, STATE_ON, []⟩
          (some [⟨"d1", "m", "mo", "se", "ve", "ip", 1, Option.none,
            some []⟩])).state = STATE_UNAVAILABLE) := by
  decide

/-- C6 (amended): for a PoE port switch updated against a device list whose
unique matching record is `d`: (1) if `d`'s state code is not in
`{1, 4, 5, 6}` the state is `STATE_UNAVAILABLE` regardless of port data;
(2) if `d` is reachable but carries no port table, reading it raises and
the state is `STATE_UNAVAILABLE`; (3) if `d` is reachable and the port
table holds no record with the requested index, the state **retains its
previous value** (it does not become unavailable); (4) if `d` is reachable
and the unique port record with the requested index carries its PoE
statistics fields whenever its mode is "auto", then the state is on iff
`poe_mode == "auto"`. -/
theorem C6_poe_update (sw : Switch) (pre post : List Device) (d : Device)
    (hp : sw.port_id ≠ 0) (hid : d.device_id = sw.dev_id)
    (hpre : ∀ e ∈ pre, e.device_id ≠ sw.dev_id)
    (hpost : ∀ e ∈ post, e.device_id ≠ sw.dev_id) :
    (d.state ∉ reachableCodes →
      (switchUpdate sw (some (pre ++ d :: post))).state = STATE_UNAVAILABLE)
    ∧ (d.state ∈ reachableCodes → d.port_table = Option.none →
      (switchUpdate sw (some (pre ++ d :: post))).state = STATE_UNAVAILABLE)
    ∧ (∀ ports, d.state ∈ reachableCodes → d.port_table = some ports →
        (∀ p ∈ ports, p.port_idx ≠ sw.port_id) →
        (switchUpdate sw (some (pre ++ d :: post))).state = sw.state)
    ∧ (∀ ps1 p ps2, d.state ∈ reachableCodes →
        d.port_table = some (ps1 ++ p :: ps2) → p.port_idx = sw.port_id →
        (∀ q ∈ ps1, q.port_idx ≠ sw.port_id) →
        (∀ q ∈ ps2, q.port_idx ≠ sw.port_id) →
        (p.poe_mode = "auto" →
          p.poe_voltage ≠ Option.none ∧ p.poe_current ≠ Option.none
            ∧ p.poe_power ≠ Option.none) →
        ((switchUpdate sw (some (pre ++ d :: post))).state = STATE_ON
          ↔ p.poe_mode = "auto")) := by
  have hupd : switchUpdate sw (some (pre ++ d :: post)) = switchUpdateStep sw d := by
    simp only [switchUpdate]
    rw [List.foldl_append, foldl_step_nonmatching pre sw hpre,
      List.foldl_cons]
    exact foldl_step_nonmatching post _ (fun e he => by
      rw [(switchUpdateStep_preserve sw d).1]; exact hpost e he)
  refine ⟨?_, ?_, ?_, ?_⟩
  · intro hr
    rw [hupd]
    exact switchUpdateStep_poe_unreachable sw d hp hid hr
  · intro hr ht
    rw [hupd]
    exact switchUpdateStep_poe_no_table sw d hp hid hr ht
  · intro ports hr ht hnone
    rw [hupd]
    exact switchUpdateStep_poe_not_found sw d hp hid hr ports ht hnone
  · intro ps1 p ps2 hr ht hidx h1 h2 hcomplete
    rw [hupd, switchUpdateStep_poe_found sw d hp hid hr ps1 p ps2 ht hidx h1
      h2 hcomplete]
    by_cases hmode : p.poe_mode = "auto"
    · simp [hmode]
    · simp only [if_neg hmode, iff_false, hmode]
      intro hfalse
      exact absurd hfalse (by decide)

/-- Witness for `C6_poe_update` at a concrete reachable device with one
complete "auto" port. -/
theorem C6_witness :
    ((switchUpdate ⟨"d1", 2, Option.none, STATE_UNKNOWN, []⟩
        (some ([] ++ (⟨"d1", "m", "mo", "se", "ve", "ip", 1, Option.none,
          some ([] ++ (⟨2, "Port 2", true, "auto", some (.int 52),
            some (.int 100), some (.int 5)⟩ : Port) :: [])⟩ : Device)
          :: []))).state = STATE_ON
      ↔ (⟨2, "Port 2", true, "auto", some (.int 52), some (.int 100),
          some (.int 5)⟩ : Port).poe_mode = "auto") :=
  (C6_poe_update ⟨"d1", 2, Option.none, STATE_UNKNOWN, []⟩ [] []
      ⟨"d1", "m", "mo", "se", "ve", "ip", 1, Option.none,
        some [⟨2, "Port 2", true, "auto", some (.int 52), some (.int 100),
          some (.int 5)⟩]⟩
      (by decide) rfl (fun e he => absurd he (List.not_mem_nil e))
      (fun e he => absurd he (List.not_mem_nil e))).2.2.2
    [] ⟨2, "Port 2", true, "auto", some (.int 52), some (.int 100),
      some (.int 5)⟩ []
    (by decide) rfl rfl (fun q hq => absurd hq (List.not_mem_nil q))
    (fun q hq => absurd hq (List.not_mem_nil q))
    (fun _ => by
      refine ⟨?_, ?_, ?_⟩ <;> intro hx <;> cases hx)

/-! ## C7 — component not located in a valid snapshot -/

lemma healthFold_nonmatching (tag : String) :
    ∀ (subs : List Subsystem) (st : SensorSt),
      (∀ sub ∈ subs, sub.subsystem ≠ tag) →
      subs.foldl (sensorHealthStep tag) st = st := by
  intro subs
  induction subs with
  | nil => intro st _; rfl
  | cons sub rest ih =>
    intro st h
    have h1 : sensorHealthStep tag st sub = st := by
      simp [sensorHealthStep, h sub (List.mem_cons_self sub rest)]
    simp only [List.foldl_cons, h1]
    exact ih st fun s hs => h s (List.mem_cons_of_mem sub hs)

/-- C7 is refuted: a subsystem sensor whose tag matches no record in an
otherwise valid health list keeps its previous state (here the stale
`"OK"` reading) instead of becoming absent. -/
theorem C7_counterexample :
    ((sensorHealthUpdate "wan"
        ⟨some (.str "OK"), [("x", .int 1)], Option.none, Option.none⟩
        (some [⟨"lan", "ok", []⟩])).state).isSome = true
    ∧ (sensorHealthUpdate "wan"
        ⟨some (.str "OK"), [("x", .int 1)], Option.none, Option.none⟩
        (some [⟨"lan", "ok", []⟩])).state = some (.str "OK") :=
  ⟨by decide, rfl⟩

/-- C7 (amended): when the requested component cannot be located in an
otherwise valid snapshot, the reported state **retains its previous
value**: a subsystem sensor whose tag matches no record keeps its state
and attributes, and a switch whose device id matches no record is left
entirely unchanged.  The state becomes unknown/unavailable only when the
fetch itself failed (`healthinfo`/`aps` is `None`). -/
theorem C7_missing_component :
    (∀ (tag : String) (st : SensorSt) (subs : List Subsystem),
        (∀ sub ∈ subs, sub.subsystem ≠ tag) →
        (sensorHealthUpdate tag st (some subs)).state = st.state
        ∧ (sensorHealthUpdate tag st (some subs)).attrs = st.attrs)
    ∧ (∀ (sw : Switch) (devs : List Device),
        (∀ d ∈ devs, d.device_id ≠ sw.dev_id) →
        switchUpdate sw (some devs) = sw)
    ∧ (∀ (tag : String) (st : SensorSt),
        (sensorHealthUpdate tag st Option.none).state = Option.none
        ∧ (sensorHealthUpdate tag st Option.none).attrs = [])
    ∧ (∀ sw : Switch, (switchUpdate sw Option.none).state = STATE_UNAVAILABLE) := by
  refine ⟨?_, ?_, ?_, ?_⟩
  · intro tag st subs h
    simp only [sensorHealthUpdate]
    rw [healthFold_nonmatching tag subs _ h]
    exact ⟨rfl, rfl⟩
  · intro sw devs h
    simp only [switchUpdate]
    exact foldl_step_nonmatching devs sw h
  · intro tag st
    exact ⟨rfl, rfl⟩
  · intro sw
    rfl

/-- Witness for `C7_missing_component` at a concrete stale sensor. -/
theorem C7_witness :
    (sensorHealthUpdate "wan"
        ⟨some (.str "OK"), [], Option.none, Option.none⟩
        (some [⟨"lan", "ok", []⟩])).state
      = (⟨some (.str "OK"), [], Option.none, Option.none⟩ : SensorSt).state :=
  (C7_missing_component.1 "wan"
    ⟨some (.str "OK"), [], Option.none, Option.none⟩ [⟨"lan", "ok", []⟩]
    (fun sub hsub => by
      rcases List.mem_singleton.mp hsub with rfl
      decide)).1

/-! ## C9 — derived-sensor error containment -/

/-- Holds for the exception classes the registry's extraction primitives
can actually raise (everything except the open `other` class). -/
def knownExc (e : PyExc) : Bool :=
  match e with
  | .other _ => false
  | _ => true

lemma pyGet_error {v : Val} {k : String} {dflt : Val} {e : PyExc}
    (h : pyGet v k dflt = .error e) : e = .attributeError := by
  cases v with
  | dict d =>
    unfold pyGet at h
    rcases hf : dictFind d k with _ | x <;> simp [hf] at h
  | none => exact (Except.error.inj h).symm
  | bool b => exact (Except.error.inj h).symm
  | int n => exact (Except.error.inj h).symm
  | str s => exact (Except.error.inj h).symm
  | list l => exact (Except.error.inj h).symm

lemma pyGet_known {v : Val} {k : String} {dflt : Val} {e : PyExc}
    (h : pyGet v k dflt = .error e) : knownExc e = true := by
  rw [pyGet_error h]; rfl

lemma pyToInt_known {v : Val} {e : PyExc} (h : pyToInt v = .error e) :
    knownExc e = true := by
  cases v with
  | str s =>
    have h' : (match s.toInt? with
        | some n => Except.ok (ε := PyExc) n
        | Option.none => Except.error PyExc.valueError) = Except.error e := h
    rcases hs : s.toInt? with _ | n <;> rw [hs] at h'
    · rw [← Except.error.inj h']; rfl
    · exact Except.noConfusion h'
  | int n => exact absurd h (by simp [pyToInt])
  | bool b => exact absurd h (by simp [pyToInt])
  | none => rw [← Except.error.inj h]; rfl
  | dict d => rw [← Except.error.inj h]; rfl
  | list l => rw [← Except.error.inj h]; rfl

lemma intOfDiv1024_known {v : Val} {e : PyExc}
    (h : intOfDiv1024 v = .error e) : knownExc e = true := by
  cases v with
  | int n => exact absurd h (by simp [intOfDiv1024])
  | bool b => exact absurd h (by simp [intOfDiv1024])
  | none => rw [← Except.error.inj h]; rfl
  | str s => rw [← Except.error.inj h]; rfl
  | dict d => rw [← Except.error.inj h]; rfl
  | list l => rw [← Except.error.inj h]; rfl

lemma bindKnown {α β : Type} {x : Except PyExc α} {f : α → Except PyExc β}
    {e : PyExc} (h : (x >>= f) = .error e)
    (hx : ∀ e', x = .error e' → knownExc e' = true)
    (hf : ∀ a e', f a = .error e' → knownExc e' = true) :
    knownExc e = true := by
  cases hxv : x with
  | error e' =>
    rw [hxv] at h
    have h' : Except.error (ε := PyExc) (α := β) e' = Except.error e := h
    rw [← Except.error.inj h']
    exact hx e' hxv
  | ok a =>
    rw [hxv] at h
    exact hf a e h

lemma pureKnown {β : Type} {b : β} {e : PyExc}
    (h : (pure b : Except PyExc β) = .error e) : knownExc e = true := by
  have h' : Except.ok (ε := PyExc) b = Except.error e := h
  exact Except.noConfusion h'

lemma fn_wan_cpu_known : ∀ (a : Val) (e : PyExc),
    fn_wan_cpu a = .error e → knownExc e = true := by
  intro a e h
  unfold fn_wan_cpu at h
  exact bindKnown h (fun e' he' => pyGet_known he')
    (fun s e' he' => pyGet_known he')

lemma fn_wan_mem_known : ∀ (a : Val) (e : PyExc),
    fn_wan_mem a = .error e → knownExc e = true := by
  intro a e h
  unfold fn_wan_mem at h
  exact bindKnown h (fun e' he' => pyGet_known he')
    (fun s e' he' => pyGet_known he')

lemma fn_wan_ip_known : ∀ (a : Val) (e : PyExc),
    fn_wan_ip a = .error e → knownExc e = true := by
  intro a e h
  exact pyGet_known h

lemma fn_wan_download_known : ∀ (a : Val) (e : PyExc),
    fn_wan_download a = .error e → knownExc e = true := by
  intro a e h
  unfold fn_wan_download at h
  exact bindKnown h (fun e' he' => pyGet_known he')
    (fun r e' he' => intOfDiv1024_known he')

lemma fn_wan_upload_known : ∀ (a : Val) (e : PyExc),
    fn_wan_upload a = .error e → knownExc e = true := by
  intro a e h
  unfold fn_wan_upload at h
  exact bindKnown h (fun e' he' => pyGet_known he')
    (fun r e' he' => intOfDiv1024_known he')

lemma fn_wan_uptime_known : ∀ (a : Val) (e : PyExc),
    fn_wan_uptime a = .error e → knownExc e = true := by
  intro a e h
  unfold fn_wan_uptime at h
  refine bindKnown h (fun e' he' => pyGet_known he') ?_
  intro s e' he'
  refine bindKnown he' (fun e'' he'' => pyGet_known he'') ?_
  intro u e'' he''
  refine bindKnown he'' (fun e3 he3 => pyToInt_known he3) ?_
  intro n e3 he3
  exact pureKnown he3

lemma fn_firmware_version_known : ∀ (a : Val) (e : PyExc),
    fn_firmware_version a = .error e → knownExc e = true := by
  intro a e h
  exact pyGet_known h

lemma fn_xput_down_known : ∀ (a : Val) (e : PyExc),
    fn_xput_down a = .error e → knownExc e = true := by
  intro a e h
  exact pyGet_known h

lemma fn_xput_up_known : ∀ (a : Val) (e : PyExc),
    fn_xput_up a = .error e → knownExc e = true := by
  intro a e h
  exact pyGet_known h

lemma fn_speedtest_ping_known : ∀ (a : Val) (e : PyExc),
    fn_speedtest_ping a = .error e → knownExc e = true := by
  intro a e h
  exact pyGet_known h

lemma fn_www_uptime_known : ∀ (a : Val) (e : PyExc),
    fn_www_uptime a = .error e → knownExc e = true := by
  intro a e h
  unfold fn_www_uptime at h
  refine bindKnown h (fun e' he' => pyGet_known he') ?_
  intro u e' he'
  refine bindKnown he' (fun e'' he'' => pyToInt_known he'') ?_
  intro n e'' he''
  exact pureKnown he''

lemma fn_num_user_known : ∀ (a : Val) (e : PyExc),
    fn_num_user a = .error e → knownExc e = true := by
  intro a e h
  exact pyGet_known h

lemma fn_last_alert_known : ∀ (a : Val) (e : PyExc),
    fn_last_alert a = .error e → knownExc e = true := by
  intro a e h
  unfold fn_last_alert at h
  exact bindKnown h (fun e' he' => pyGet_known he')
    (fun x e' he' => pyGet_known he')

lemma derivedUpdate_caught {value_fn : Val → Except PyExc Val} {a : Val}
    {e : PyExc} (hfa : value_fn a = .error e)
    (hc : caughtByDerivedUpdate e = true) :
    derivedUpdate value_fn (some a) = .ok Option.none := by
  have h0 : derivedUpdate value_fn (some a)
      = (match value_fn a with
        | Except.ok v => Except.ok (some v)
        | Except.error e' =>
          if caughtByDerivedUpdate e' = true then Except.ok Option.none
          else Except.error e') := rfl
  rw [h0, hfa]
  show (if caughtByDerivedUpdate e = true then
      Except.ok (ε := PyExc) (α := Option Val) Option.none
    else Except.error e) = Except.ok Option.none
  rw [if_pos hc]

lemma derivedUpdate_error {value_fn : Val → Except PyExc Val}
    {attrs : Option Val} {e : PyExc}
    (h : derivedUpdate value_fn attrs = .error e) :
    ∃ a, attrs = some a ∧ value_fn a = .error e
      ∧ caughtByDerivedUpdate e = false := by
  cases attrs with
  | none => simp [derivedUpdate] at h
  | some a =>
    have h' : (match value_fn a with
        | Except.ok v => Except.ok (some v)
        | Except.error e' =>
          if caughtByDerivedUpdate e' = true then Except.ok Option.none
          else Except.error e') = Except.error (α := Option Val) e := h
    cases hfa : value_fn a with
    | ok v =>
      rw [hfa] at h'
      exact Except.noConfusion h'
    | error e' =>
      rw [hfa] at h'
      have h'' : (if caughtByDerivedUpdate e' = true then
          Except.ok (ε := PyExc) (α := Option Val) Option.none
        else Except.error e') = Except.error e := h'
      by_cases hc : caughtByDerivedUpdate e' = true
      · rw [if_pos hc] at h''
        exact Except.noConfusion h''
      · rw [if_neg hc] at h''
        have he : e' = e := Except.error.inj h''
        subst he
        exact ⟨a, rfl, hfa, by simpa using hc⟩

/-- C9 is refuted: the `"UDM CPU"` rule applied to the attribute map
`{"gw_system-stats": 5}` (a truthy non-mapping value) raises
`AttributeError` when it calls `.get` on the integer, and the derived
sensor's `except (KeyError, TypeError, ValueError)` clause does not
contain it — the exception escapes `update`. -/
theorem C9_counterexample :
    derivedUpdate fn_wan_cpu (some (.dict [("gw_system-stats", .int 5)]))
      = .error .attributeError := rfl

/-- C9 (amended): for every rule in the `DERIVED_SENSORS` registry and
every attribute map, evaluation through the derived-sensor update contains
`KeyError`/`TypeError`/`ValueError` as the `None` state, and the only
exception class that can escape `update` is `AttributeError` (raised when
a value that should be a mapping is a truthy non-mapping). -/
theorem C9_error_containment (d : DerivedSensorDef) (hd : d ∈ DERIVED_SENSORS)
    (attrs : Option Val) :
    (∀ e, derivedUpdate d.value_fn attrs = .error e → e = .attributeError)
    ∧ (∀ a e, attrs = some a → d.value_fn a = .error e →
        caughtByDerivedUpdate e = true →
        derivedUpdate d.value_fn attrs = .ok Option.none) := by
  constructor
  · intro e h
    obtain ⟨a, -, hfa, hcaught⟩ := derivedUpdate_error h
    have hknown : knownExc e = true := by
      fin_cases hd
      · exact fn_wan_cpu_known a e hfa
      · exact fn_wan_mem_known a e hfa
      · exact fn_wan_ip_known a e hfa
      · exact fn_wan_download_known a e hfa
      · exact fn_wan_upload_known a e hfa
      · exact fn_wan_uptime_known a e hfa
      · exact fn_firmware_version_known a e hfa
      · exact fn_xput_down_known a e hfa
      · exact fn_xput_up_known a e hfa
      · exact fn_speedtest_ping_known a e hfa
      · exact fn_www_uptime_known a e hfa
      · exact fn_num_user_known a e hfa
      · exact fn_num_user_known a e hfa
      · exact fn_last_alert_known a e hfa
    cases e <;> simp_all [knownExc, caughtByDerivedUpdate]
  · intro a e ha hfa hc
    subst ha
    exact derivedUpdate_caught hfa hc

/-- Witness for `C9_error_containment`: the Internet-Uptime rule applied
to an attribute map whose `uptime` value is a list raises `TypeError`,
which is contained as the `None` state. -/
theorem C9_witness :
    derivedUpdate
      (⟨"Internet Uptime", "unifi_status_www_uptime", "www", Option.none,
        Option.none, fn_www_uptime⟩ : DerivedSensorDef).value_fn
      (some (.dict [("uptime", .list [])])) = .ok Option.none :=
  (C9_error_containment
      ⟨"Internet Uptime", "unifi_status_www_uptime", "www", Option.none,
        Option.none, fn_www_uptime⟩
      (by unfold DERIVED_SENSORS
          exact List.mem_cons_of_mem _ (List.mem_cons_of_mem _
            (List.mem_cons_of_mem _ (List.mem_cons_of_mem _
              (List.mem_cons_of_mem _ (List.mem_cons_of_mem _
                (List.mem_cons_of_mem _ (List.mem_cons_of_mem _
                  (List.mem_cons_of_mem _ (List.mem_cons_of_mem _
                    (List.mem_cons_self _ _)))))))))))
      (some (.dict [("uptime", .list [])]))).2
    (.dict [("uptime", .list [])]) .typeError rfl rfl rfl

/-! ## C3, C4, C10 — coordinator failure handling -/

lemma failsWithApiError_exists {env : RefreshEnv}
    (h : env.failsWithApiError = true) :
    ∃ m, env.firstFetch = .error (.apiError m) := by
  unfold RefreshEnv.failsWithApiError at h
  cases hf : env.firstFetch with
  | ok d => rw [hf] at h; exact Bool.noConfusion h
  | error err =>
    cases err with
    | apiError m => exact ⟨m, rfl⟩
    | other m => rw [hf] at h; exact Bool.noConfusion h

lemma soft_run_aux (envs : List RefreshEnv) :
    ∀ s : CoordState,
      s.consecutiveFailures + envs.length < MAX_CONSECUTIVE_FAILURES →
      (∀ e ∈ envs, e.failsWithApiError = true) →
      (runRefreshes s envs).1.ctrl = s.ctrl
      ∧ (runRefreshes s envs).1.data = s.data
      ∧ (runRefreshes s envs).2.2.countP CoordEvent.isClose = 0
      ∧ (runRefreshes s envs).2.2.countP CoordEvent.isCreate = 0
      ∧ ∀ r ∈ (runRefreshes s envs).2.1, ∃ msg, r = .updateFailed msg := by
  induction envs with
  | nil =>
    intro s _ _
    exact ⟨rfl, rfl, rfl, rfl, fun r hr => absurd hr (List.not_mem_nil r)⟩
  | cons e es ih =>
    intro s hlen hfail
    obtain ⟨m, hm⟩ :=
      failsWithApiError_exists (hfail e (List.mem_cons_self e es))
    have htail : ∀ e' ∈ es, e'.failsWithApiError = true :=
      fun e' he' => hfail e' (List.mem_cons_of_mem e he')
    cases hctrl : s.ctrl with
    | none =>
      have hstep : async_update_data s e
          = (s, .updateFailed "Controller not initialized", []) := by
        simp [async_update_data, hctrl]
      have hlen' : s.consecutiveFailures + es.length
          < MAX_CONSECUTIVE_FAILURES := by
        simp only [List.length_cons] at hlen
        omega
      obtain ⟨ih1, ih2, ih3, ih4, ih5⟩ := ih s hlen' htail
      rcases hrun : runRefreshes s es with ⟨s2, rs, evs2⟩
      rw [hrun] at ih1 ih2 ih3 ih4 ih5
      simp only [runRefreshes, hstep, hrun]
      refine ⟨ih1.trans hctrl, by simpa using ih2, ?_, ?_, ?_⟩
      · simpa using ih3
      · simpa using ih4
      · intro r hr
        simp only [List.mem_cons] at hr
        rcases hr with rfl | hr
        · exact ⟨"Controller not initialized", rfl⟩
        · exact ih5 r hr
    | some cid =>
      have hth : ¬ (MAX_CONSECUTIVE_FAILURES
          ≤ s.consecutiveFailures + 1) := by
        simp only [List.length_cons] at hlen
        unfold MAX_CONSECUTIVE_FAILURES at hlen ⊢
        omega
      have hstep : async_update_data s e
          = ({ s with consecutiveFailures := s.consecutiveFailures + 1 },
             .updateFailed ("Error communicating with UniFi controller: " ++ m),
             [.fetchAttempt cid]) := by
        simp [async_update_data, hctrl, hm, hth]
      have hlen' :
          ({ s with consecutiveFailures := s.consecutiveFailures + 1 }
            : CoordState).consecutiveFailures + es.length
          < MAX_CONSECUTIVE_FAILURES := by
        simp only [List.length_cons] at hlen
        simp only []
        omega
      obtain ⟨ih1, ih2, ih3, ih4, ih5⟩ := ih _ hlen' htail
      rcases hrun : runRefreshes
          { s with consecutiveFailures := s.consecutiveFailures + 1 } es with
        ⟨s2, rs, evs2⟩
      rw [hrun] at ih1 ih2 ih3 ih4 ih5
      simp only [runRefreshes, hstep, hrun]
      refine ⟨ih1.trans hctrl, by simpa using ih2, ?_, ?_, ?_⟩
      · simp only [List.countP_append, List.countP_cons, List.countP_nil]
        simpa [CoordEvent.isClose] using ih3
      · simp only [List.countP_append, List.countP_cons, List.countP_nil]
        simpa [CoordEvent.isCreate] using ih4
      · intro r hr
        simp only [List.mem_cons] at hr
        rcases hr with rfl | hr
        · exact ⟨_, rfl⟩
        · exact ih5 r hr

/-- C4: for every run of up to two consecutive refreshes whose fetch
sequences fail with `APIError` (counter starting at 0, so it stays below
the threshold of 3), the session handle is never closed or recreated, the
last good snapshot is unchanged, and every cycle reports a soft failure
(`UpdateFailed`) while the stale data stays visible. -/
theorem C4_soft_failures (s : CoordState) (envs : List RefreshEnv)
    (h0 : s.consecutiveFailures = 0) (hlen : envs.length < 3)
    (hfail : ∀ e ∈ envs, e.failsWithApiError = true) :
    (runRefreshes s envs).1.ctrl = s.ctrl
    ∧ (runRefreshes s envs).1.data = s.data
    ∧ (runRefreshes s envs).2.2.countP CoordEvent.isClose = 0
    ∧ (runRefreshes s envs).2.2.countP CoordEvent.isCreate = 0
    ∧ ∀ r ∈ (runRefreshes s envs).2.1, ∃ msg, r = .updateFailed msg :=
  soft_run_aux envs s
    (by unfold MAX_CONSECUTIVE_FAILURES; omega) hfail

/-- Witness for `C4_soft_failures`: two consecutive API failures with a
live session leave the session and data untouched. -/
theorem C4_witness :
    (runRefreshes ⟨some 0, 0, Option.none⟩
        [⟨.error (.apiError "t1"), false, .ok 1, .error "r1"⟩,
         ⟨.error (.apiError "t2"), false, .ok 1, .error "r2"⟩]).1.ctrl
      = (⟨some 0, 0, Option.none⟩ : CoordState).ctrl
    ∧ (runRefreshes ⟨some 0, 0, Option.none⟩
        [⟨.error (.apiError "t1"), false, .ok 1, .error "r1"⟩,
         ⟨.error (.apiError "t2"), false, .ok 1, .error "r2"⟩]).2.2.countP
          CoordEvent.isCreate = 0 :=
  ⟨(C4_soft_failures ⟨some 0, 0, Option.none⟩
      [⟨.error (.apiError "t1"), false, .ok 1, .error "r1"⟩,
       ⟨.error (.apiError "t2"), false, .ok 1, .error "r2"⟩]
      rfl (by decide) (by decide)).1,
   (C4_soft_failures ⟨some 0, 0, Option.none⟩
      [⟨.error (.apiError "t1"), false, .ok 1, .error "r1"⟩,
       ⟨.error (.apiError "t2"), false, .ok 1, .error "r2"⟩]
      rfl (by decide) (by decide)).2.2.2.1⟩

/-- C3: when a refresh's fetch fails with `APIError` and the counter
thereby reaches exactly 3: the old session is closed exactly once and the
outcome is independent of whether the close raises; with a successfully
recreated session exactly one creation and exactly one retry fetch happen
(two fetch attempts in total); a successful retry publishes the new
snapshot and resets the counter to 0; a failed retry is reported as
`UpdateFailed` (never an unhandled exception) with the data unchanged. -/
theorem C3_threshold_recovery (s : CoordState) (env : RefreshEnv)
    (cid : Nat) (m : String) (hctrl : s.ctrl = some cid)
    (hcnt : s.consecutiveFailures = 2)
    (hff : env.firstFetch = .error (.apiError m)) :
    ((async_update_data s env).2.2.countP CoordEvent.isClose = 1
      ∧ CoordEvent.close cid env.closeRaises ∈ (async_update_data s env).2.2)
    ∧ ((async_update_data s { env with closeRaises := true }).1
        = (async_update_data s { env with closeRaises := false }).1
      ∧ (async_update_data s { env with closeRaises := true }).2.1
        = (async_update_data s { env with closeRaises := false }).2.1)
    ∧ (∀ nid, env.createCtrl = .ok nid →
        (async_update_data s env).2.2.countP CoordEvent.isCreate = 1
        ∧ (async_update_data s env).2.2.countP CoordEvent.isFetchAttempt = 2
        ∧ (async_update_data s env).1.ctrl = some nid
        ∧ (∀ d, env.retryFetch = .ok d →
            (async_update_data s env).2.1 = .success d
            ∧ (async_update_data s env).1.consecutiveFailures = 0
            ∧ (async_update_data s env).1.data = some d)
        ∧ (∀ err, env.retryFetch = .error err →
            (async_update_data s env).2.1
              = .updateFailed ("Failed after controller recreation: " ++ err)
            ∧ (async_update_data s env).1.consecutiveFailures = 0
            ∧ (async_update_data s env).1.data = s.data)) := by
  have hth : MAX_CONSECUTIVE_FAILURES ≤ s.consecutiveFailures + 1 := by
    rw [hcnt]; decide
  cases hcr : env.createCtrl with
  | error e =>
    refine ⟨⟨?_, ?_⟩, ⟨?_, ?_⟩, ?_⟩ <;>
      simp [async_update_data, hctrl, hff, hcr, hth, CoordEvent.isClose,
        CoordEvent.isCreate, CoordEvent.isFetchAttempt, List.countP_cons,
        List.countP_nil]
  | ok nid =>
    cases hrf : env.retryFetch with
    | ok d =>
      refine ⟨⟨?_, ?_⟩, ⟨?_, ?_⟩, ?_⟩ <;>
        simp [async_update_data, hctrl, hff, hcr, hrf, hth,
          CoordEvent.isClose, CoordEvent.isCreate, CoordEvent.isFetchAttempt,
          List.countP_cons, List.countP_nil]
    | error err =>
      refine ⟨⟨?_, ?_⟩, ⟨?_, ?_⟩, ?_⟩ <;>
        simp [async_update_data, hctrl, hff, hcr, hrf, hth,
          CoordEvent.isClose, CoordEvent.isCreate, CoordEvent.isFetchAttempt,
          List.countP_cons, List.countP_nil]

/-- Witness for `C3_threshold_recovery`: at the threshold with a failing
retry, the outcome is `UpdateFailed` with the counter reset. -/
theorem C3_witness :
    (async_update_data ⟨some 7, 2, Option.none⟩
        ⟨.error (.apiError "t"), true, .ok 8, .error "r"⟩).2.2.countP
          CoordEvent.isClose = 1
    ∧ (async_update_data ⟨some 7, 2, Option.none⟩
        ⟨.error (.apiError "t"), true, .ok 8, .error "r"⟩).1.ctrl = some 8 :=
  ⟨(C3_threshold_recovery ⟨some 7, 2, Option.none⟩
      ⟨.error (.apiError "t"), true, .ok 8, .error "r"⟩ 7 "t" rfl rfl rfl).1.1,
   ((C3_threshold_recovery ⟨some 7, 2, Option.none⟩
      ⟨.error (.apiError "t"), true, .ok 8, .error "r"⟩ 7 "t" rfl rfl rfl).2.2
      8 rfl).2.2.1⟩

/-- C10: whenever the threshold path successfully recreates the session,
the consecutive-failure counter is reset to 0 before the retry fetch (so
it is 0 after both a successful and a failed retry); a failed retry is
reported as `UpdateFailed`; and afterwards fewer than three fresh
consecutive failures never close or recreate the session again. -/
theorem C10_counter_reset (s : CoordState) (env : RefreshEnv)
    (cid nid : Nat) (m : String) (hctrl : s.ctrl = some cid)
    (hth : MAX_CONSECUTIVE_FAILURES ≤ s.consecutiveFailures + 1)
    (hff : env.firstFetch = .error (.apiError m))
    (hcr : env.createCtrl = .ok nid) :
    (async_update_data s env).1.consecutiveFailures = 0
    ∧ (∀ err, env.retryFetch = .error err →
        (async_update_data s env).2.1
          = .updateFailed ("Failed after controller recreation: " ++ err))
    ∧ (∀ envs, envs.length < MAX_CONSECUTIVE_FAILURES →
        (∀ e ∈ envs, e.failsWithApiError = true) →
        (runRefreshes (async_update_data s env).1 envs).2.2.countP
            CoordEvent.isClose = 0
        ∧ (runRefreshes (async_update_data s env).1 envs).2.2.countP
            CoordEvent.isCreate = 0) := by
  have h1 : (async_update_data s env).1.consecutiveFailures = 0 := by
    cases hrf : env.retryFetch <;>
      simp [async_update_data, hctrl, hff, hcr, hrf, hth]
  refine ⟨h1, ?_, ?_⟩
  · intro err hrf
    simp [async_update_data, hctrl, hff, hcr, hrf, hth]
  · intro envs hlen hfail
    have haux := soft_run_aux envs (async_update_data s env).1
      (by rw [h1]; simpa using hlen) hfail
    exact ⟨haux.2.2.1, haux.2.2.2.1⟩

/-- Witness for `C10_counter_reset`: after a hard failure (failed retry on
the recreated session) the counter is 0. -/
theorem C10_witness :
    (async_update_data ⟨some 7, 2, Option.none⟩
        ⟨.error (.apiError "t"), false, .ok 8, .error "r"⟩).1.consecutiveFailures
      = 0 :=
  (C10_counter_reset ⟨some 7, 2, Option.none⟩
      ⟨.error (.apiError "t"), false, .ok 8, .error "r"⟩ 7 8 "t" rfl
      (by decide) rfl rfl).1

end UnifiStatus
